import Mathlib

/-!
Verification of the LineIntersection module
(src/LineIntersection/LineIntersection.py).

The geometric core, `LineIntersectionLogic.computeClosestPointOfIntersection`,
is embedded over exact rational arithmetic: every numpy float operation is
mapped to the corresponding exact operation on `ℚ`.  The numpy test
`np.linalg.norm(d) == 0` is embedded as `Vec3.normSq d = 0`, which is
equivalent in exact arithmetic (a Euclidean norm vanishes exactly when the
sum of squares vanishes, and square roots are not otherwise used by the
code).  `np.linalg.det` on a 3x3 row matrix is embedded as the closed-form
3x3 determinant `det3`.

The widget controller (`LineIntersectionWidget`) is embedded as a state
machine over an explicit `WidgetState` record holding the twelve slider
values, the three markup control points, the parameter-node fields and the
`_creating` re-entrancy flag.
-/

/-- A 3-component vector of exact rationals, embedding the 3-element
float lists / numpy arrays used by the Python code. -/
structure Vec3 where
  x : ℚ
  y : ℚ
  z : ℚ
deriving DecidableEq

namespace Vec3

/-- Componentwise addition (numpy `+`). -/
def add (a b : Vec3) : Vec3 := ⟨a.x + b.x, a.y + b.y, a.z + b.z⟩

/-- Componentwise subtraction (numpy `-`). -/
def sub (a b : Vec3) : Vec3 := ⟨a.x - b.x, a.y - b.y, a.z - b.z⟩

/-- Scalar multiplication (numpy `t * v`). -/
def smul (t : ℚ) (v : Vec3) : Vec3 := ⟨t * v.x, t * v.y, t * v.z⟩

/-- Dot product (numpy `np.dot`). -/
def dot (a b : Vec3) : ℚ := a.x * b.x + a.y * b.y + a.z * b.z

/-- Cross product (numpy `np.cross`). -/
def cross (a b : Vec3) : Vec3 :=
  ⟨a.y * b.z - a.z * b.y, a.z * b.x - a.x * b.z, a.x * b.y - a.y * b.x⟩

/-- Squared Euclidean norm: the exact value of `np.linalg.norm(v) ** 2`,
and the exact test for `np.linalg.norm(v) == 0`. -/
def normSq (v : Vec3) : ℚ := dot v v

theorem ext3 (a b : Vec3) (hx : a.x = b.x) (hy : a.y = b.y) (hz : a.z = b.z) :
    a = b := by
  cases a; cases b; simp_all

end Vec3

/-- Determinant of the 3x3 matrix whose rows are `a`, `b`, `c`
(numpy `np.linalg.det([a, b, c])`, evaluated exactly). -/
def det3 (a b c : Vec3) : ℚ :=
  a.x * (b.y * c.z - b.z * c.y) - a.y * (b.x * c.z - b.z * c.x)
    + a.z * (b.x * c.y - b.y * c.x)

/-- Embedding of `LineIntersectionLogic.computeClosestPointOfIntersection`
(src/LineIntersection/LineIntersection.py lines 216-242), branch for branch:
zero-direction early return, then the parallel branch (`denom == 0`), then
the skew branch. -/
def computeClosestPointOfIntersection (p1 d1 p2 d2 : Vec3) : Vec3 :=
  if Vec3.normSq d1 = 0 ∨ Vec3.normSq d2 = 0 then ⟨0, 0, 0⟩
  else if Vec3.normSq (Vec3.cross d1 d2) = 0 then
    Vec3.smul (1/2)
      (Vec3.add
        (Vec3.add p1
          (Vec3.smul (Vec3.dot (Vec3.sub p2 p1) d1 / Vec3.dot d1 d1) d1))
        p2)
  else
    Vec3.smul (1/2)
      (Vec3.add
        (Vec3.add p1
          (Vec3.smul
            (det3 (Vec3.sub p2 p1) d2 (Vec3.cross d1 d2) /
              Vec3.normSq (Vec3.cross d1 d2)) d1))
        (Vec3.add p2
          (Vec3.smul
            (det3 (Vec3.sub p2 p1) d1 (Vec3.cross d1 d2) /
              Vec3.normSq (Vec3.cross d1 d2)) d2)))

/-- The Python method returns `closest.tolist()`, a list of three floats;
this wrapper mirrors that return shape. -/
def computeClosestPointOfIntersectionList (p1 d1 p2 d2 : Vec3) : List ℚ :=
  [(computeClosestPointOfIntersection p1 d1 p2 d2).x,
   (computeClosestPointOfIntersection p1 d1 p2 d2).y,
   (computeClosestPointOfIntersection p1 d1 p2 d2).z]

/-- Stated from the spec wording for the skew case: the two closest points
`c1 = p1 + t1·d1` and `c2 = p2 + t2·d2` with
`t1 = det[p2−p1, d2, cross] / ‖cross‖²` and
`t2 = det[p2−p1, d1, cross] / ‖cross‖²`, returning the midpoint
`(c1 + c2) / 2`.  Used to compare the code against the spec formula. -/
def skewMidpointSpec (p1 d1 p2 d2 : Vec3) : Vec3 :=
  Vec3.smul (1/2)
    (Vec3.add
      (Vec3.add p1
        (Vec3.smul
          (det3 (Vec3.sub p2 p1) d2 (Vec3.cross d1 d2) /
            Vec3.normSq (Vec3.cross d1 d2)) d1))
      (Vec3.add p2
        (Vec3.smul
          (det3 (Vec3.sub p2 p1) d1 (Vec3.cross d1 d2) /
            Vec3.normSq (Vec3.cross d1 d2)) d2)))

/-- Stated from the spec wording for the parallel case: the foot of
perpendicular from `p2` onto line 1 via `t = ((p2 − p1)·d1) / (d1·d1)`,
returning the midpoint between `p1 + t·d1` and `p2`. -/
def parallelMidpointSpec (p1 d1 p2 : Vec3) : Vec3 :=
  Vec3.smul (1/2)
    (Vec3.add
      (Vec3.add p1
        (Vec3.smul (Vec3.dot (Vec3.sub p2 p1) d1 / Vec3.dot d1 d1) d1))
      p2)

theorem Vec3.normSq_eq_zero_iff (v : Vec3) :
    Vec3.normSq v = 0 ↔ v = ⟨0, 0, 0⟩ := by
  constructor
  · intro h
    simp only [Vec3.normSq, Vec3.dot] at h
    have hx : v.x = 0 := by
      nlinarith [mul_self_nonneg v.x, mul_self_nonneg v.y, mul_self_nonneg v.z]
    have hy : v.y = 0 := by
      nlinarith [mul_self_nonneg v.x, mul_self_nonneg v.y, mul_self_nonneg v.z]
    have hz : v.z = 0 := by
      nlinarith [mul_self_nonneg v.x, mul_self_nonneg v.y, mul_self_nonneg v.z]
    exact Vec3.ext3 _ _ hx hy hz
  · intro h
    subst h
    simp [Vec3.normSq, Vec3.dot]

theorem Vec3.cross_left_zero (d2 : Vec3) :
    Vec3.cross ⟨0, 0, 0⟩ d2 = ⟨0, 0, 0⟩ := by
  simp [Vec3.cross]

theorem Vec3.cross_right_zero (d1 : Vec3) :
    Vec3.cross d1 ⟨0, 0, 0⟩ = ⟨0, 0, 0⟩ := by
  simp [Vec3.cross]

/-- If the cross product of the two directions is nonzero then both
directions are nonzero, so the zero-direction early return is not taken. -/
theorem normSq_ne_zero_of_cross (d1 d2 : Vec3)
    (h : Vec3.normSq (Vec3.cross d1 d2) ≠ 0) :
    Vec3.normSq d1 ≠ 0 ∧ Vec3.normSq d2 ≠ 0 := by
  constructor
  · intro h0
    apply h
    rw [(Vec3.normSq_eq_zero_iff d1).mp h0, Vec3.cross_left_zero]
    simp [Vec3.normSq, Vec3.dot]
  · intro h0
    apply h
    rw [(Vec3.normSq_eq_zero_iff d2).mp h0, Vec3.cross_right_zero]
    simp [Vec3.normSq, Vec3.dot]

/- Shared helper lemmas describing the three branches of the solver.  The
claim theorems below restate them; they are kept separate so that claim
theorems never appear in the proofs of other claims. -/

theorem compute_eq_origin_of_zero_dir (p1 d1 p2 d2 : Vec3)
    (h : Vec3.normSq d1 = 0 ∨ Vec3.normSq d2 = 0) :
    computeClosestPointOfIntersection p1 d1 p2 d2 = ⟨0, 0, 0⟩ := by
  unfold computeClosestPointOfIntersection
  rw [if_pos h]

theorem compute_eq_skew (p1 d1 p2 d2 : Vec3)
    (h : Vec3.normSq (Vec3.cross d1 d2) ≠ 0) :
    computeClosestPointOfIntersection p1 d1 p2 d2 =
      skewMidpointSpec p1 d1 p2 d2 := by
  obtain ⟨h1, h2⟩ := normSq_ne_zero_of_cross d1 d2 h
  unfold computeClosestPointOfIntersection skewMidpointSpec
  rw [if_neg (by tauto), if_neg h]

theorem compute_eq_parallel (p1 d1 p2 d2 : Vec3)
    (h1 : Vec3.normSq d1 ≠ 0) (h2 : Vec3.normSq d2 ≠ 0)
    (hpar : Vec3.normSq (Vec3.cross d1 d2) = 0) :
    computeClosestPointOfIntersection p1 d1 p2 d2 =
      parallelMidpointSpec p1 d1 p2 := by
  unfold computeClosestPointOfIntersection parallelMidpointSpec
  rw [if_neg (by tauto), if_pos hpar]

/- Algebraic helper lemmas used for the scale-invariance and symmetry
claims. -/

theorem Vec3.smul_smul (a b : ℚ) (v : Vec3) :
    Vec3.smul a (Vec3.smul b v) = Vec3.smul (a * b) v := by
  apply Vec3.ext3 <;> simp [Vec3.smul] <;> ring

theorem Vec3.dot_smul_right (k : ℚ) (a b : Vec3) :
    Vec3.dot a (Vec3.smul k b) = k * Vec3.dot a b := by
  simp [Vec3.dot, Vec3.smul]; ring

theorem Vec3.dot_smul_smul (k : ℚ) (a b : Vec3) :
    Vec3.dot (Vec3.smul k a) (Vec3.smul k b) = k ^ 2 * Vec3.dot a b := by
  simp [Vec3.dot, Vec3.smul]; ring

theorem Vec3.normSq_smul (k : ℚ) (v : Vec3) :
    Vec3.normSq (Vec3.smul k v) = k ^ 2 * Vec3.normSq v :=
  Vec3.dot_smul_smul k v v

theorem Vec3.cross_smul_left (k : ℚ) (a b : Vec3) :
    Vec3.cross (Vec3.smul k a) b = Vec3.smul k (Vec3.cross a b) := by
  apply Vec3.ext3 <;> simp [Vec3.cross, Vec3.smul] <;> ring

theorem det3_smul_mid (k : ℚ) (a b c : Vec3) :
    det3 a (Vec3.smul k b) c = k * det3 a b c := by
  simp [det3, Vec3.smul]; ring

theorem det3_smul_last (k : ℚ) (a b c : Vec3) :
    det3 a b (Vec3.smul k c) = k * det3 a b c := by
  simp [det3, Vec3.smul]; ring

/-- Scalar identity behind scale invariance of `t1` (and of the parallel
`t`): valid also when the denominator vanishes, since division by zero is
zero. -/
theorem scale_div_aux (k d n : ℚ) (hk : k ≠ 0) :
    k * d / (k ^ 2 * n) * k = d / n := by
  rcases eq_or_ne n 0 with h | h
  · simp [h]
  · field_simp
    ring

/-- Scalar identity behind scale invariance of `t2`. -/
theorem scale_div_aux2 (k d n : ℚ) (hk : k ≠ 0) :
    k * (k * d) / (k ^ 2 * n) = d / n := by
  rcases eq_or_ne n 0 with h | h
  · simp [h]
  · field_simp
    ring

/-- C1: for every pair of points `p1, p2` and direction vectors `d1, d2`,
if `d1` or `d2` has zero magnitude then
`computeClosestPointOfIntersection` returns `(0, 0, 0)` regardless of
`p1` and `p2`. -/
theorem zero_direction_returns_origin (p1 d1 p2 d2 : Vec3)
    (h : Vec3.normSq d1 = 0 ∨ Vec3.normSq d2 = 0) :
    computeClosestPointOfIntersection p1 d1 p2 d2 = ⟨0, 0, 0⟩ := by
  unfold computeClosestPointOfIntersection
  rw [if_pos h]

theorem zero_direction_returns_origin_witness :
    (Vec3.normSq ⟨0, 0, 0⟩ = 0 ∨ Vec3.normSq (⟨4, 5, 6⟩ : Vec3) = 0) ∧
    computeClosestPointOfIntersection ⟨7, -8, 9⟩ ⟨0, 0, 0⟩ ⟨1, 2, 3⟩ ⟨4, 5, 6⟩ =
      ⟨0, 0, 0⟩ :=
  ⟨Or.inl (by norm_num [Vec3.normSq, Vec3.dot]),
   zero_direction_returns_origin _ _ _ _
     (Or.inl (by norm_num [Vec3.normSq, Vec3.dot]))⟩

/-- C2: whenever the direction cross product is nonzero (which forces both
directions nonzero), the code returns exactly the spec skew formula: the
midpoint `(c1 + c2) / 2` of `c1 = p1 + t1·d1` and `c2 = p2 + t2·d2` with
`t1 = det[p2−p1, d2, cross] / ‖cross‖²` and
`t2 = det[p2−p1, d1, cross] / ‖cross‖²`. -/
theorem skew_branch_returns_spec_midpoint (p1 d1 p2 d2 : Vec3)
    (h : Vec3.normSq (Vec3.cross d1 d2) ≠ 0) :
    computeClosestPointOfIntersection p1 d1 p2 d2 =
      skewMidpointSpec p1 d1 p2 d2 := by
  obtain ⟨h1, h2⟩ := normSq_ne_zero_of_cross d1 d2 h
  unfold computeClosestPointOfIntersection skewMidpointSpec
  rw [if_neg (by tauto), if_neg h]

/-- Witness for C2, including the concrete instance from the claim:
`p1=(0,0,0), d1=(1,0,0), p2=(0,0,1), d2=(0,1,0)` yields `(0, 0, 1/2)`. -/
theorem skew_branch_returns_spec_midpoint_witness :
    Vec3.normSq (Vec3.cross ⟨1, 0, 0⟩ ⟨0, 1, 0⟩) ≠ 0 ∧
    computeClosestPointOfIntersection ⟨0, 0, 0⟩ ⟨1, 0, 0⟩ ⟨0, 0, 1⟩ ⟨0, 1, 0⟩ =
      skewMidpointSpec ⟨0, 0, 0⟩ ⟨1, 0, 0⟩ ⟨0, 0, 1⟩ ⟨0, 1, 0⟩ ∧
    computeClosestPointOfIntersection ⟨0, 0, 0⟩ ⟨1, 0, 0⟩ ⟨0, 0, 1⟩ ⟨0, 1, 0⟩ =
      ⟨0, 0, 1/2⟩ :=
  ⟨by norm_num [Vec3.normSq, Vec3.dot, Vec3.cross],
   skew_branch_returns_spec_midpoint _ _ _ _
     (by norm_num [Vec3.normSq, Vec3.dot, Vec3.cross]),
   by norm_num [computeClosestPointOfIntersection, Vec3.normSq, Vec3.dot,
     Vec3.cross, Vec3.sub, Vec3.add, Vec3.smul, det3]⟩

/-- C3: with both directions nonzero but parallel (`‖d1 × d2‖² = 0`), the
code returns the spec parallel formula: the midpoint between `p1 + t·d1`
and `p2` with `t = ((p2 − p1)·d1) / (d1·d1)`. -/
theorem parallel_branch_returns_spec_midpoint (p1 d1 p2 d2 : Vec3)
    (h1 : Vec3.normSq d1 ≠ 0) (h2 : Vec3.normSq d2 ≠ 0)
    (hpar : Vec3.normSq (Vec3.cross d1 d2) = 0) :
    computeClosestPointOfIntersection p1 d1 p2 d2 =
      parallelMidpointSpec p1 d1 p2 := by
  unfold computeClosestPointOfIntersection parallelMidpointSpec
  rw [if_neg (by tauto), if_pos hpar]

/-- Witness for C3, including the identical-lines instance from the claim:
`p1 = p2 = (0,0,0)`, `d1 = d2 = (1,0,0)` yields `(0, 0, 0)`. -/
theorem parallel_branch_returns_spec_midpoint_witness :
    Vec3.normSq (⟨1, 0, 0⟩ : Vec3) ≠ 0 ∧
    Vec3.normSq (⟨1, 0, 0⟩ : Vec3) ≠ 0 ∧
    Vec3.normSq (Vec3.cross ⟨1, 0, 0⟩ ⟨1, 0, 0⟩) = 0 ∧
    computeClosestPointOfIntersection ⟨0, 0, 0⟩ ⟨1, 0, 0⟩ ⟨0, 0, 0⟩ ⟨1, 0, 0⟩ =
      parallelMidpointSpec ⟨0, 0, 0⟩ ⟨1, 0, 0⟩ ⟨0, 0, 0⟩ ∧
    computeClosestPointOfIntersection ⟨0, 0, 0⟩ ⟨1, 0, 0⟩ ⟨0, 0, 0⟩ ⟨1, 0, 0⟩ =
      ⟨0, 0, 0⟩ :=
  ⟨by norm_num [Vec3.normSq, Vec3.dot],
   by norm_num [Vec3.normSq, Vec3.dot],
   by norm_num [Vec3.normSq, Vec3.dot, Vec3.cross],
   parallel_branch_returns_spec_midpoint _ _ _ _
     (by norm_num [Vec3.normSq, Vec3.dot])
     (by norm_num [Vec3.normSq, Vec3.dot])
     (by norm_num [Vec3.normSq, Vec3.dot, Vec3.cross]),
   by norm_num [computeClosestPointOfIntersection, Vec3.normSq, Vec3.dot,
     Vec3.cross, Vec3.sub, Vec3.add, Vec3.smul, det3]⟩

/-- C4: scale invariance — multiplying `d1` by any nonzero scalar `k`
does not change the result of `computeClosestPointOfIntersection`. -/
theorem scale_invariance (k : ℚ) (p1 d1 p2 d2 : Vec3) (hk : k ≠ 0) :
    computeClosestPointOfIntersection p1 (Vec3.smul k d1) p2 d2 =
      computeClosestPointOfIntersection p1 d1 p2 d2 := by
  by_cases h1 : Vec3.normSq d1 = 0
  · have h1k : Vec3.normSq (Vec3.smul k d1) = 0 := by
      rw [Vec3.normSq_smul, h1, mul_zero]
    rw [compute_eq_origin_of_zero_dir _ _ _ _ (Or.inl h1k),
        compute_eq_origin_of_zero_dir _ _ _ _ (Or.inl h1)]
  by_cases h2 : Vec3.normSq d2 = 0
  · rw [compute_eq_origin_of_zero_dir _ _ _ _ (Or.inr h2),
        compute_eq_origin_of_zero_dir _ _ _ _ (Or.inr h2)]
  have h1k : Vec3.normSq (Vec3.smul k d1) ≠ 0 := by
    rw [Vec3.normSq_smul]
    exact mul_ne_zero (pow_ne_zero 2 hk) h1
  have hcs : Vec3.cross (Vec3.smul k d1) d2 =
      Vec3.smul k (Vec3.cross d1 d2) := Vec3.cross_smul_left k d1 d2
  by_cases hpar : Vec3.normSq (Vec3.cross d1 d2) = 0
  · have hpark : Vec3.normSq (Vec3.cross (Vec3.smul k d1) d2) = 0 := by
      rw [hcs, Vec3.normSq_smul, hpar, mul_zero]
    rw [compute_eq_parallel _ _ _ _ h1k h2 hpark,
        compute_eq_parallel _ _ _ _ h1 h2 hpar]
    unfold parallelMidpointSpec
    rw [Vec3.dot_smul_right, Vec3.dot_smul_smul, Vec3.smul_smul,
        scale_div_aux _ _ _ hk]
  · have hpark : Vec3.normSq (Vec3.cross (Vec3.smul k d1) d2) ≠ 0 := by
      rw [hcs, Vec3.normSq_smul]
      exact mul_ne_zero (pow_ne_zero 2 hk) hpar
    rw [compute_eq_skew _ _ _ _ hpark, compute_eq_skew _ _ _ _ hpar]
    unfold skewMidpointSpec
    rw [hcs, Vec3.normSq_smul, det3_smul_mid, det3_smul_last, det3_smul_last,
        Vec3.smul_smul, scale_div_aux _ _ _ hk, scale_div_aux2 _ _ _ hk]

/-- Witness for C4 at `k = 3` on the skew example. -/
theorem scale_invariance_witness :
    (3 : ℚ) ≠ 0 ∧
    computeClosestPointOfIntersection ⟨0, 0, 0⟩ (Vec3.smul 3 ⟨1, 0, 0⟩)
        ⟨0, 0, 1⟩ ⟨0, 1, 0⟩ =
      computeClosestPointOfIntersection ⟨0, 0, 0⟩ ⟨1, 0, 0⟩ ⟨0, 0, 1⟩ ⟨0, 1, 0⟩ :=
  ⟨by norm_num, scale_invariance 3 _ _ _ _ (by norm_num)⟩

/- Helper lemmas for the symmetry claim. -/

theorem Vec3.normSq_cross_comm (a b : Vec3) :
    Vec3.normSq (Vec3.cross b a) = Vec3.normSq (Vec3.cross a b) := by
  simp [Vec3.normSq, Vec3.dot, Vec3.cross]; ring

/-- In the parallel configuration, perpendicularity of the offset to `d1`
transfers to `d2`: the vanishing cross product forces
`(d1·d1)·(q·d2) = (d1·d2)·(q·d1)`. -/
theorem dot_perp_transfer (q d1 d2 : Vec3)
    (hc : Vec3.cross d1 d2 = ⟨0, 0, 0⟩)
    (h1 : Vec3.normSq d1 ≠ 0)
    (hq : Vec3.dot q d1 = 0) :
    Vec3.dot q d2 = 0 := by
  have e := hc
  simp only [Vec3.cross, Vec3.mk.injEq] at e
  obtain ⟨e1, e2, e3⟩ := e
  have key : Vec3.dot d1 d1 * Vec3.dot q d2 =
      Vec3.dot d1 d2 * Vec3.dot q d1 := by
    simp only [Vec3.dot]
    linear_combination (d1.x * q.y - d1.y * q.x) * e3 +
      (d1.z * q.x - d1.x * q.z) * e2 + (d1.y * q.z - d1.z * q.y) * e1
  rw [hq, mul_zero] at key
  have h1' : Vec3.dot d1 d1 ≠ 0 := h1
  exact (mul_eq_zero.mp key).resolve_left h1'

/-- The skew-branch formula itself is symmetric under swapping the two
lines. -/
theorem skew_spec_symm (p1 d1 p2 d2 : Vec3)
    (h : Vec3.normSq (Vec3.cross d1 d2) ≠ 0) :
    skewMidpointSpec p1 d1 p2 d2 = skewMidpointSpec p2 d2 p1 d1 := by
  have h2 : Vec3.normSq (Vec3.cross d2 d1) ≠ 0 := by
    rw [Vec3.normSq_cross_comm]; exact h
  simp only [Vec3.normSq, Vec3.dot, Vec3.cross] at h h2
  apply Vec3.ext3 <;>
    simp only [skewMidpointSpec, det3, Vec3.add, Vec3.sub, Vec3.smul,
      Vec3.cross, Vec3.normSq, Vec3.dot] <;>
    field_simp <;>
    ring

/-- C5 counterexample: for the coincident parallel lines
`p1 = (0,0,0)`, `p2 = (1,0,0)`, `d1 = d2 = (1,0,0)` the code returns
`(1,0,0)` in one argument order and `(0,0,0)` in the other, so the claimed
unconditional symmetry is false. -/
theorem symmetry_counterexample :
    computeClosestPointOfIntersection ⟨0, 0, 0⟩ ⟨1, 0, 0⟩ ⟨1, 0, 0⟩ ⟨1, 0, 0⟩ ≠
      computeClosestPointOfIntersection ⟨1, 0, 0⟩ ⟨1, 0, 0⟩ ⟨0, 0, 0⟩ ⟨1, 0, 0⟩ := by
  norm_num [computeClosestPointOfIntersection, Vec3.normSq, Vec3.dot,
    Vec3.cross, Vec3.sub, Vec3.add, Vec3.smul, det3]

/-- C5 (amended): swapping the two argument lines leaves the result
unchanged whenever a direction is zero, or the directions are non-parallel,
or — in the parallel branch — the offset `p2 − p1` is perpendicular to
`d1`; in the remaining parallel configurations the two orders can return
different points. -/
theorem symmetry_amended (p1 d1 p2 d2 : Vec3)
    (h : Vec3.normSq d1 = 0 ∨ Vec3.normSq d2 = 0 ∨
        Vec3.normSq (Vec3.cross d1 d2) ≠ 0 ∨
        Vec3.dot (Vec3.sub p2 p1) d1 = 0) :
    computeClosestPointOfIntersection p1 d1 p2 d2 =
      computeClosestPointOfIntersection p2 d2 p1 d1 := by
  by_cases h1 : Vec3.normSq d1 = 0
  · rw [compute_eq_origin_of_zero_dir _ _ _ _ (Or.inl h1),
        compute_eq_origin_of_zero_dir _ _ _ _ (Or.inr h1)]
  by_cases h2 : Vec3.normSq d2 = 0
  · rw [compute_eq_origin_of_zero_dir _ _ _ _ (Or.inr h2),
        compute_eq_origin_of_zero_dir _ _ _ _ (Or.inl h2)]
  by_cases hpar : Vec3.normSq (Vec3.cross d1 d2) = 0
  · have hq : Vec3.dot (Vec3.sub p2 p1) d1 = 0 := by tauto
    have hpar2 : Vec3.normSq (Vec3.cross d2 d1) = 0 := by
      rw [Vec3.normSq_cross_comm]; exact hpar
    rw [compute_eq_parallel _ _ _ _ h1 h2 hpar,
        compute_eq_parallel _ _ _ _ h2 h1 hpar2]
    have hc : Vec3.cross d1 d2 = ⟨0, 0, 0⟩ :=
      (Vec3.normSq_eq_zero_iff _).mp hpar
    have hq2 : Vec3.dot (Vec3.sub p2 p1) d2 = 0 :=
      dot_perp_transfer _ _ _ hc h1 hq
    have hq2s : Vec3.dot (Vec3.sub p1 p2) d2 = 0 := by
      simp only [Vec3.dot, Vec3.sub] at hq2 ⊢
      linarith
    unfold parallelMidpointSpec
    rw [hq, hq2s]
    apply Vec3.ext3 <;> simp [Vec3.smul, Vec3.add] <;> ring
  · have hskew2 : Vec3.normSq (Vec3.cross d2 d1) ≠ 0 := by
      rw [Vec3.normSq_cross_comm]; exact hpar
    rw [compute_eq_skew _ _ _ _ hpar, compute_eq_skew _ _ _ _ hskew2]
    exact skew_spec_symm p1 d1 p2 d2 hpar

/-- Witness for the amended C5, on the skew example. -/
theorem symmetry_amended_witness :
    (Vec3.normSq (⟨0,0,0⟩ : Vec3) = 0 ∨ Vec3.normSq (⟨0,1,0⟩ : Vec3) = 0 ∨
      Vec3.normSq (Vec3.cross ⟨1, 0, 0⟩ ⟨0, 1, 0⟩) ≠ 0 ∨
      Vec3.dot (Vec3.sub ⟨0,0,1⟩ ⟨0,0,0⟩) ⟨1,0,0⟩ = 0) ∧
    computeClosestPointOfIntersection ⟨0, 0, 0⟩ ⟨1, 0, 0⟩ ⟨0, 0, 1⟩ ⟨0, 1, 0⟩ =
      computeClosestPointOfIntersection ⟨0, 0, 1⟩ ⟨0, 1, 0⟩ ⟨0, 0, 0⟩ ⟨1, 0, 0⟩ :=
  ⟨Or.inr (Or.inr (Or.inl (by norm_num [Vec3.normSq, Vec3.dot, Vec3.cross]))),
   symmetry_amended _ _ _ _
     (Or.inr (Or.inr (Or.inl (by norm_num [Vec3.normSq, Vec3.dot, Vec3.cross]))))⟩

/-- Division instrumented to detect division by zero: `none` exactly when
the corresponding Python expression would divide by zero. -/
def divChecked (a b : ℚ) : Option ℚ := if b = 0 then none else some (a / b)

/-- Division-checking variant of `computeClosestPointOfIntersection`:
identical branch structure, but every division goes through `divChecked`,
and the result is the 3-element list the Python method returns. -/
def computeCheckedList (p1 d1 p2 d2 : Vec3) : Option (List ℚ) :=
  if Vec3.normSq d1 = 0 ∨ Vec3.normSq d2 = 0 then some [0, 0, 0]
  else if Vec3.normSq (Vec3.cross d1 d2) = 0 then
    match divChecked (Vec3.dot (Vec3.sub p2 p1) d1) (Vec3.dot d1 d1) with
    | none => none
    | some t =>
      some [(Vec3.smul (1/2) (Vec3.add (Vec3.add p1 (Vec3.smul t d1)) p2)).x,
            (Vec3.smul (1/2) (Vec3.add (Vec3.add p1 (Vec3.smul t d1)) p2)).y,
            (Vec3.smul (1/2) (Vec3.add (Vec3.add p1 (Vec3.smul t d1)) p2)).z]
  else
    match
      divChecked (det3 (Vec3.sub p2 p1) d2 (Vec3.cross d1 d2))
        (Vec3.normSq (Vec3.cross d1 d2)),
      divChecked (det3 (Vec3.sub p2 p1) d1 (Vec3.cross d1 d2))
        (Vec3.normSq (Vec3.cross d1 d2)) with
    | some t1, some t2 =>
      some [(Vec3.smul (1/2) (Vec3.add (Vec3.add p1 (Vec3.smul t1 d1))
              (Vec3.add p2 (Vec3.smul t2 d2)))).x,
            (Vec3.smul (1/2) (Vec3.add (Vec3.add p1 (Vec3.smul t1 d1))
              (Vec3.add p2 (Vec3.smul t2 d2)))).y,
            (Vec3.smul (1/2) (Vec3.add (Vec3.add p1 (Vec3.smul t1 d1))
              (Vec3.add p2 (Vec3.smul t2 d2)))).z]
    | _, _ => none

/-- C9: totality — for every input no division by zero occurs (the
division-checking variant never returns `none` and agrees with the direct
evaluation), and the function always returns a list of exactly three
rationals. -/
theorem compute_total_no_div_by_zero (p1 d1 p2 d2 : Vec3) :
    computeCheckedList p1 d1 p2 d2 =
      some (computeClosestPointOfIntersectionList p1 d1 p2 d2) ∧
    (computeClosestPointOfIntersectionList p1 d1 p2 d2).length = 3 := by
  refine ⟨?_, rfl⟩
  unfold computeCheckedList computeClosestPointOfIntersectionList
    computeClosestPointOfIntersection divChecked
  by_cases h0 : Vec3.normSq d1 = 0 ∨ Vec3.normSq d2 = 0
  · simp [h0]
  · have h1 : Vec3.normSq d1 ≠ 0 := fun h => h0 (Or.inl h)
    have h1d : Vec3.dot d1 d1 ≠ 0 := h1
    by_cases hpar : Vec3.normSq (Vec3.cross d1 d2) = 0
    · simp [h0, hpar, h1d]
    · simp [h0, hpar]

/-!
Embedding of `LineIntersectionWidget` as a state machine.  `WidgetState`
records everything the handlers read or write: the four groups of three
sliders, the three markup control points, the parameter-node fields and
the `_creating` re-entrancy flag, plus the output label.
-/

/-- Python `round(x)` (round-half-to-even) on an exact rational. -/
def pyRound (q : ℚ) : ℤ :=
  if q - ⌊q⌋ < 1/2 then ⌊q⌋
  else if 1/2 < q - ⌊q⌋ then ⌊q⌋ + 1
  else if ⌊q⌋ % 2 = 0 then ⌊q⌋ else ⌊q⌋ + 1

/-- Python `round(x, 2)` as used by the label format string. -/
def pyRound2 (q : ℚ) : ℚ := (pyRound (q * 100) : ℚ) / 100

/-- The displayed triple `tuple(round(x, 2) for x in p3)`. -/
def roundVec (v : Vec3) : Vec3 := ⟨pyRound2 v.x, pyRound2 v.y, pyRound2 v.z⟩

/-- Full addressable state of `LineIntersectionWidget`: slider values,
markup control points 0/1/2, the parameter-node `d1`, `d2`, `autoUpdate`,
the `_creating` flag, and the displayed intersection label. -/
structure WidgetState where
  p1Sliders : Vec3
  p2Sliders : Vec3
  d1Sliders : Vec3
  d2Sliders : Vec3
  point0 : Vec3
  point1 : Vec3
  point2 : Vec3
  paramD1 : Vec3
  paramD2 : Vec3
  autoUpdate : Bool
  creating : Bool
  label : Vec3
deriving DecidableEq

/-- `self._creating = True` at the start of a propagation. -/
def setCreating (s : WidgetState) : WidgetState := { s with creating := true }

/-- `self._creating = False` at the end of a propagation. -/
def clearCreating (s : WidgetState) : WidgetState := { s with creating := false }

/-- The `SetNthControlPointPosition(0/1, ...)` writes inside
`updateFromSliders` (lines 167-168). -/
def writePointsFromSliders (s : WidgetState) : WidgetState :=
  { s with point0 := s.p1Sliders, point1 := s.p2Sliders }

/-- The parameter-node direction writes inside `updateFromSliders`
(lines 171-172). -/
def writeDirsFromSliders (s : WidgetState) : WidgetState :=
  { s with paramD1 := s.d1Sliders, paramD2 := s.d2Sliders }

/-- The slider writes from control-point positions inside
`updateFromMarkups` (lines 189-192). -/
def writeSlidersFromPoints (s : WidgetState) : WidgetState :=
  { s with p1Sliders := s.point0, p2Sliders := s.point1 }

/-- Embedding of `LineIntersectionWidget.updateP3Position` (lines 198-209):
computes P3 from the given positions and the parameter-node directions,
writes control point 2 (inside the StartModify/EndModify bracket) and
updates the output label. -/
def updateP3Position (s : WidgetState) (p1 p2 : Vec3) : WidgetState :=
  { s with
    point2 := computeClosestPointOfIntersection p1 s.paramD1 p2 s.paramD2
    label :=
      roundVec (computeClosestPointOfIntersection p1 s.paramD1 p2 s.paramD2) }

/-- Embedding of `LineIntersectionWidget.updateFromSliders`
(lines 158-176): set the guard, write control points 0/1 from the sliders,
write the parameter-node directions, recompute P3, clear the guard. -/
def updateFromSliders (s : WidgetState) : WidgetState :=
  clearCreating
    (updateP3Position
      (writeDirsFromSliders (writePointsFromSliders (setCreating s)))
      s.p1Sliders s.p2Sliders)

/-- Embedding of `LineIntersectionWidget.updateFromMarkups`
(lines 178-196): set the guard, read control points 0/1, write them into
the sliders, recompute P3, clear the guard. -/
def updateFromMarkups (s : WidgetState) : WidgetState :=
  clearCreating
    (updateP3Position (writeSlidersFromPoints (setCreating s))
      s.point0 s.point1)

/-- Embedding of `LineIntersectionWidget.onSliderModified`
(lines 142-148). -/
def onSliderModified (s : WidgetState) : WidgetState :=
  if s.creating then s else updateFromSliders s

/-- Embedding of `LineIntersectionWidget.onMarkupModified`
(lines 150-156). -/
def onMarkupModified (s : WidgetState) : WidgetState :=
  if s.creating then s else updateFromMarkups s

/-- The synchronization invariant of the spec: control points 0 and 1
agree with the position sliders, and control point 2 equals the solver
applied to the current `p1, d1, p2, d2`. -/
def synced (s : WidgetState) : Prop :=
  s.point0 = s.p1Sliders ∧ s.point1 = s.p2Sliders ∧
  s.point2 =
    computeClosestPointOfIntersection s.point0 s.paramD1 s.point1 s.paramD2

/-- A concrete idle widget state used by witnesses, seeded like the module
defaults (`d1 = (1,0,0)`, `d2 = (0,1,0)`, points at the origin). -/
def sampleIdleState : WidgetState :=
  { p1Sliders := ⟨0, 0, 0⟩, p2Sliders := ⟨0, 0, 0⟩
    d1Sliders := ⟨1, 0, 0⟩, d2Sliders := ⟨0, 1, 0⟩
    point0 := ⟨0, 0, 0⟩, point1 := ⟨0, 0, 0⟩, point2 := ⟨0, 0, 0⟩
    paramD1 := ⟨1, 0, 0⟩, paramD2 := ⟨0, 1, 0⟩
    autoUpdate := false, creating := false, label := ⟨0, 0, 0⟩ }

/-- The same state with the guard set, as during a propagation. -/
def sampleBusyState : WidgetState := setCreating sampleIdleState

/-- C6: after a slider-changed or markup-points-changed event handled from
the idle state (`_creating = false`) settles, control points 0 and 1 and
the position sliders denote the same `p1` and `p2`, and control point 2
equals `computeClosestPointOfIntersection` applied to the current
`p1, d1, p2, d2`. -/
theorem sync_invariant_after_event (s : WidgetState)
    (h : s.creating = false) :
    synced (onSliderModified s) ∧ synced (onMarkupModified s) := by
  constructor <;>
    simp [onSliderModified, onMarkupModified, h, updateFromSliders,
      updateFromMarkups, clearCreating, updateP3Position,
      writeDirsFromSliders, writePointsFromSliders, writeSlidersFromPoints,
      setCreating, synced]

theorem sync_invariant_after_event_witness :
    sampleIdleState.creating = false ∧
    (synced (onSliderModified sampleIdleState) ∧
     synced (onMarkupModified sampleIdleState)) :=
  ⟨rfl, sync_invariant_after_event sampleIdleState rfl⟩

/-- C7: an event delivered while the guard is set is ignored and performs
no state writes; in particular the markup-modified notification fired by
the control-point write inside a slider-driven propagation (the state
right after `writePointsFromSliders`) is suppressed by the guard, so no
second propagation cycle occurs. -/
theorem guard_suppresses_reentry (s : WidgetState) :
    (s.creating = true →
      onSliderModified s = s ∧ onMarkupModified s = s) ∧
    onMarkupModified (writePointsFromSliders (setCreating s)) =
      writePointsFromSliders (setCreating s) := by
  refine ⟨fun h => ⟨?_, ?_⟩, ?_⟩ <;>
    simp [onSliderModified, onMarkupModified, writePointsFromSliders,
      setCreating, *]

theorem guard_suppresses_reentry_witness :
    sampleBusyState.creating = true ∧
    (onSliderModified sampleBusyState = sampleBusyState ∧
     onMarkupModified sampleBusyState = sampleBusyState) :=
  ⟨rfl, (guard_suppresses_reentry sampleBusyState).1 rfl⟩

/-- The external writes performed inside `updateFromSliders`, in program
order.  The Python source wraps none of them in a try/finally. -/
inductive SliderPropStep
  | writePoints
  | writeDirs
  | writeP3
deriving DecidableEq

/-- Exception-aware run of `updateFromSliders`: `raiseAt` names the first
step whose external call raises (`none` for a normal run).  The error
value is the widget state at the moment the exception escapes the method;
since the Python source has no try/finally, no code resets `_creating` on
that path. -/
def updateFromSlidersExc (raiseAt : Option SliderPropStep) (s : WidgetState) :
    Except WidgetState WidgetState :=
  if raiseAt = some SliderPropStep.writePoints then
    Except.error (setCreating s)
  else if raiseAt = some SliderPropStep.writeDirs then
    Except.error (writePointsFromSliders (setCreating s))
  else if raiseAt = some SliderPropStep.writeP3 then
    Except.error (writeDirsFromSliders (writePointsFromSliders (setCreating s)))
  else
    Except.ok (updateFromSliders s)

/-- C8 fails on the code: when the first control-point write raises, the
exception escapes `updateFromSliders` with `_creating` still `True`
(there is no try/finally), and from that state every subsequent slider or
markup event is permanently ignored.  The normal exit path, by contrast,
does clear the guard. -/
theorem guard_not_cleared_on_exception :
    updateFromSlidersExc (some SliderPropStep.writePoints) sampleIdleState =
      Except.error (setCreating sampleIdleState) ∧
    (setCreating sampleIdleState).creating = true ∧
    onSliderModified (setCreating sampleIdleState) =
      setCreating sampleIdleState ∧
    onMarkupModified (setCreating sampleIdleState) =
      setCreating sampleIdleState ∧
    (updateFromSliders sampleIdleState).creating = false := by
  refine ⟨rfl, rfl, ?_, ?_, rfl⟩ <;>
    simp [onSliderModified, onMarkupModified, setCreating]

/-- C10: frame property of the P3 write-back — `updateP3Position` writes
only control point 2 and the output label; control points 0 and 1, the
parameter-node `d1`, `d2` and `autoUpdate`, every slider value and the
guard flag are unchanged. -/
theorem updateP3Position_frame (s : WidgetState) (p1 p2 : Vec3) :
    (updateP3Position s p1 p2).point0 = s.point0 ∧
    (updateP3Position s p1 p2).point1 = s.point1 ∧
    (updateP3Position s p1 p2).paramD1 = s.paramD1 ∧
    (updateP3Position s p1 p2).paramD2 = s.paramD2 ∧
    (updateP3Position s p1 p2).autoUpdate = s.autoUpdate ∧
    (updateP3Position s p1 p2).p1Sliders = s.p1Sliders ∧
    (updateP3Position s p1 p2).p2Sliders = s.p2Sliders ∧
    (updateP3Position s p1 p2).d1Sliders = s.d1Sliders ∧
    (updateP3Position s p1 p2).d2Sliders = s.d2Sliders ∧
    (updateP3Position s p1 p2).creating = s.creating :=
  ⟨rfl, rfl, rfl, rfl, rfl, rfl, rfl, rfl, rfl, rfl⟩
